import Mathlib

/-!
Shallow embedding of `src/system_checks.py` of the secure-system-health
repository, together with theorems settling the frozen claims about it.

Modelling conventions:
* Python `float` values are modelled as `ℚ`; the algorithms only compare,
  add, divide and scale, so the order-theoretic content is preserved.
* Statuses are the literal strings `"OK"`, `"WARNING"`, `"RISK"` exactly as
  in the source (the source works with strings, not an enumeration).
* Each collector's raw data source (a `/proc` file, a subprocess's stdout,
  the parsed JSON configuration) is a field of an explicit `Env` record;
  an `Option` `none` stands for the caught exception (`OSError`,
  `ValueError`, `json.JSONDecodeError`) of the corresponding `try` block.
* `_load_critical_services` can raise an uncaught `AttributeError` when the
  configuration file holds valid JSON whose top level is not an object
  (`data.get` on a non-dict); this is modelled with `Except`.
* Python's `str.format` of floats (`:.1f`, `:.2f`) is approximated by
  `fmtFixed` (decimal rounding); no claim depends on the rendered digits.
-/

namespace SystemChecks

/-- Python `str.strip()` (no argument): drop leading and trailing
whitespace.  Unicode whitespace beyond ASCII is out of scope. -/
def pyStrip (s : String) : String :=
  String.mk (((s.data.dropWhile Char.isWhitespace).reverse.dropWhile
    Char.isWhitespace).reverse)

/-- Python `str.lower()`, restricted to ASCII case folding. -/
def pyLower (s : String) : String :=
  String.mk (s.data.map Char.toLower)

/-- Python `s.startswith(p)`. -/
def startswith (s p : String) : Bool :=
  p.data.isPrefixOf s.data

/-- A JSON value as produced by `json.load`. -/
inductive Json where
  | null : Json
  | bool (b : Bool) : Json
  | num (q : ℚ) : Json
  | str (s : String) : Json
  | arr (items : List Json) : Json
  | obj (fields : List (String × Json)) : Json

/-- Python's builtin `str` applied to a decoded JSON value.  Containers are
abbreviated; the claims only exercise string entries. -/
def pyStr : Json → String
  | .null => "None"
  | .bool true => "True"
  | .bool false => "False"
  | .num q => toString q
  | .str s => s
  | .arr _ => "[...]"
  | .obj _ => "\x7b...\x7d"

/-- One line of `/proc/mounts` (already split on whitespace), together with
the outcome of the two per-mount stat calls the collectors may perform:
`du` is `shutil.disk_usage(mountpoint)` as `(total, used)` bytes and `vfs`
is `os.statvfs(mountpoint)` as `(f_files, f_ffree)`; `none` is the caught
`OSError`. -/
structure MountLine where
  parts : List String
  du : Option (Nat × Nat)
  vfs : Option (Nat × Nat)
deriving DecidableEq, Repr

/-- The host state observed by one run: every raw data source read by the
collectors of `system_checks.py`.  `none` fields are the caught I/O or
parse failures of the corresponding `try` blocks. -/
structure Env where
  /-- result of `_get_os_pretty_name` (pure string plumbing). -/
  osName : String
  /-- result of `_get_uptime_seconds`; the source returns `0.0` on failure. -/
  uptimeSeconds : ℚ
  /-- Value of `os.getloadavg()[0]`; the source returns `0.0` on failure. -/
  load1 : ℚ
  /-- Value of `os.cpu_count()` (`none` = Python `None`). -/
  cpuCountRaw : Option Nat
  /-- parsed `/proc/meminfo`: `(MemTotal kB, MemAvailable kB)`; a missing
  line leaves the source's initial `0` in place, so it is a `0` here. -/
  meminfo : Option (Nat × Nat)
  /-- parsed `/proc/mounts`; `none` = unreadable. -/
  mountLines : Option (List MountLine)
  /-- stdout of `systemctl is-active <service>`; `none` = `OSError`. -/
  systemctlOut : String → Option String
  /-- parsed `docs/critical_services.json`; `none` = `OSError` or
  `json.JSONDecodeError`. -/
  configJson : Option Json
  /-- total byte count of the `os.walk` over `/var/log`; `none` = `OSError`
  raised by the walk itself. -/
  logBytes : Option Nat
  /-- stdout of `timedatectl show -p NTPSynchronized --value`;
  `none` = `OSError`. -/
  timedatectlOut : Option String

/-- Embedding of `_status_from_threshold` (system_checks.py lines 13-18). -/
def status_from_threshold (value warn risk : ℚ) : String :=
  if value ≥ risk then "RISK"
  else if value ≥ warn then "WARNING"
  else "OK"

/-- Embedding of `_risk_score` (lines 213-218). -/
def risk_score (status : String) : Nat :=
  if status = "RISK" then 85
  else if status = "WARNING" then 55
  else 10

/-- Embedding of `_format_uptime` (lines 51-61). -/
def format_uptime (seconds : ℚ) : String :=
  if seconds ≤ 0 then "unknown"
  else
    let minutes : Nat := (⌊seconds / 60⌋).toNat
    let hours := minutes / 60
    let days := hours / 24
    if days > 0 then toString days ++ "d " ++ toString (hours % 24) ++ "h"
    else if hours > 0 then toString hours ++ "h " ++ toString (minutes % 60) ++ "m"
    else toString minutes ++ "m"

/-- Decimal rendering with `digits` places, approximating Python's
`format(x, ".1f")` / `".2f"` on the nonnegative values that occur here. -/
def fmtFixed (digits : Nat) (q : ℚ) : String :=
  let n : Int := round (q * (10 : ℚ) ^ digits)
  let ip : Int := n / ((10 : Int) ^ digits)
  let fs : String := toString (n.natAbs % 10 ^ digits)
  toString ip ++ "." ++ String.mk (List.replicate (digits - fs.length) '0') ++ fs

/-- Embedding of `os.cpu_count() or 1` (line 72): `None` and `0` are falsy. -/
def cpu_count (env : Env) : Nat :=
  match env.cpuCountRaw with
  | none => 1
  | some n => if n = 0 then 1 else n

/-- Embedding of `_get_memory_info` (lines 75-91): `(total bytes, available bytes,
percent used)`, all zero when the file is unreadable or total is zero. -/
def get_memory_info (env : Env) : Nat × Nat × ℚ :=
  match env.meminfo with
  | none => (0, 0, 0)
  | some (totalKB, availKB) =>
    let total := totalKB * 1024
    let available := availKB * 1024
    if total > 0 then
      (total, available, (((total : ℚ) - (available : ℚ)) / (total : ℚ)) * 100)
    else (0, 0, 0)

/-- The contribution of one `/proc/mounts` line to `_get_disk_usages`
(lines 98-109): `none` when the line is short, filtered out, or its
`shutil.disk_usage` call raised. -/
def diskEntry (ml : MountLine) : Option (String × ℚ × Nat × Nat) :=
  match ml.parts with
  | device :: mountpoint :: fstype :: _ =>
    if startswith device "/dev/" && fstype != "tmpfs" && fstype != "devtmpfs" then
      match ml.du with
      | some (total, used) =>
        some (mountpoint,
          if total ≠ 0 then ((used : ℚ) / (total : ℚ)) * 100 else 0,
          used, total)
      | none => none
    else none
  | _ => none

/-- The loop body of `_get_disk_usages` over all lines. -/
def diskUsagesOf (lines : List MountLine) : List (String × ℚ × Nat × Nat) :=
  lines.filterMap diskEntry

/-- Embedding of `_get_disk_usages` (lines 94-112). -/
def get_disk_usages (env : Env) : List (String × ℚ × Nat × Nat) :=
  match env.mountLines with
  | none => []
  | some lines => diskUsagesOf lines

/-- The contribution of one `/proc/mounts` line to `_get_inode_usages`
(lines 119-134); mounts with `f_files = 0` yield `none`. -/
def inodeEntry (ml : MountLine) : Option (String × ℚ) :=
  match ml.parts with
  | device :: mountpoint :: fstype :: _ =>
    if startswith device "/dev/" && fstype != "tmpfs" && fstype != "devtmpfs" then
      match ml.vfs with
      | some (total, free) =>
        if total > 0 then
          some (mountpoint, (((total : ℚ) - (free : ℚ)) / (total : ℚ)) * 100)
        else none
      | none => none
    else none
  | _ => none

/-- The loop body of `_get_inode_usages` over all lines. -/
def inodeUsagesOf (lines : List MountLine) : List (String × ℚ) :=
  lines.filterMap inodeEntry

/-- Embedding of `_get_inode_usages` (lines 115-137). -/
def get_inode_usages (env : Env) : List (String × ℚ) :=
  match env.mountLines with
  | none => []
  | some lines => inodeUsagesOf lines

/-- The keyword arguments of a `subprocess.run` invocation, as far as the
claims are concerned: the argument vector, `check`, and the `timeout`
parameter (`none` when no `timeout=` keyword is passed at all). -/
structure SubprocessCall where
  argv : List String
  check : Bool
  timeout : Option ℚ
deriving DecidableEq, Repr

/-- The `subprocess.run` invocation of `_systemctl_is_active`
(lines 142-148): no `timeout` keyword is passed. -/
def systemctl_run_call (service : String) : SubprocessCall :=
  { argv := ["systemctl", "is-active", service], check := false, timeout := none }

/-- The `subprocess.run` invocation of `_check_time_sync` (lines 196-202):
no `timeout` keyword is passed. -/
def timedatectl_run_call : SubprocessCall :=
  { argv := ["timedatectl", "show", "-p", "NTPSynchronized", "--value"],
    check := false, timeout := none }

/-- Embedding of `_systemctl_is_active` (lines 140-151). -/
def systemctl_is_active (env : Env) (service : String) : Bool :=
  match env.systemctlOut service with
  | none => false
  | some out => pyStrip out == "active"

/-- Embedding of `_check_services` (lines 154-158). -/
def check_services (env : Env) (services : List String) : String × String :=
  let missing := services.filter (fun name => !(systemctl_is_active env name))
  match missing with
  | [] => ("OK", "All critical services active")
  | _ => ("WARNING", "Not active: " ++ String.intercalate ", " missing)

/-- Embedding of `_check_log_growth` (lines 161-175), with the source's default
arguments `log_dir="/var/log"`, `warn_mb=512`, `risk_mb=2048` passed
explicitly by the orchestrator. -/
def check_log_growth (env : Env) (log_dir : String) (warn_mb risk_mb : ℚ) :
    String × String :=
  match env.logBytes with
  | none => ("WARNING", "Unable to read log directory")
  | some total_bytes =>
    let total_mb : ℚ := (total_bytes : ℚ) / (1024 * 1024)
    (status_from_threshold total_mb warn_mb risk_mb,
     fmtFixed 1 total_mb ++ " MB in " ++ log_dir)

/-- The `default_services` constant of `_load_critical_services`
(line 179). -/
def default_services : List String := ["ssh", "systemd-journald"]

/-- Embedding of `_load_critical_services` (lines 178-191).  The `try` block catches
only `OSError` and `json.JSONDecodeError` (both collapsed into the `none`
input); when the file parses to a JSON value that is not an object,
`data.get` raises an uncaught `AttributeError`, modelled as `.error`. -/
def load_critical_services (cfg : Option Json) : Except String (List String) :=
  match cfg with
  | none => .ok default_services
  | some (.obj fields) =>
    let services := (fields.lookup "critical_services").getD (.arr [])
    match services with
    | .arr [] => .ok default_services
    | .arr items =>
      .ok ((items.map (fun s => pyStrip (pyStr s))).filter (fun s => s != ""))
    | _ => .ok default_services
  | some _ => .error "AttributeError"

/-- Embedding of `_check_time_sync` (lines 194-210). -/
def check_time_sync (env : Env) : String × String :=
  match env.timedatectlOut with
  | some out =>
    let value := pyLower (pyStrip out)
    if value = "yes" then ("OK", "NTP synchronized")
    else if value = "no" then ("WARNING", "NTP not synchronized")
    else ("WARNING", "Unable to determine NTP sync status")
  | none => ("WARNING", "Unable to determine NTP sync status")

/-- One finding dict of `run_system_health_checks`: the six fixed keys of
every appended dict literal. -/
structure Finding where
  category : String
  check : String
  status : String
  details : String
  risk_score : Nat
  reason : String
deriving DecidableEq, Repr

/-- The identity/uptime finding appended at lines 225-238. -/
def os_uptime_finding (env : Env) : Finding :=
  let uptime_str := format_uptime env.uptimeSeconds
  let os_status := if env.uptimeSeconds > 0 then "OK" else "WARNING"
  { category := "System"
    check := "OS version & uptime"
    status := os_status
    details := env.osName ++ ", uptime " ++ uptime_str
    risk_score := risk_score os_status
    reason := "Baseline host identification and uptime evidence" }

/-- The CPU load finding appended at lines 240-253. -/
def cpu_load_finding (env : Env) : Finding :=
  let load_1 := env.load1
  let cc := cpu_count env
  let load_per_cpu := if cc ≠ 0 then load_1 / (cc : ℚ) else load_1
  let load_status := status_from_threshold (load_per_cpu * 100) 70 90
  { category := "System"
    check := "CPU load (1m)"
    status := load_status
    details := "Load " ++ fmtFixed 2 load_1 ++ " across " ++ toString cc ++ " CPU(s)"
    risk_score := risk_score load_status
    reason := "Sustained high load can degrade service availability" }

/-- The memory finding appended at lines 255-271: the threshold verdict on
percent-used is overridden to `WARNING` when total is zero. -/
def memory_finding (env : Env) : Finding :=
  let mi := get_memory_info env
  let mem_total := mi.1
  let mem_used_percent := mi.2.2
  let pair : String × String :=
    if mem_total > 0 then
      (status_from_threshold mem_used_percent 80 90,
       "Used " ++ fmtFixed 1 mem_used_percent ++ "% of " ++
         fmtFixed 1 ((mem_total : ℚ) / 1024 ^ 3) ++ " GB")
    else ("WARNING", "Memory stats unavailable")
  { category := "System"
    check := "Memory usage"
    status := pair.1
    details := pair.2
    risk_score := risk_score pair.1
    reason := "Memory pressure impacts stability and response time" }

/-- The synthetic finding appended at lines 274-284 when the disk list is
empty. -/
def disk_unavailable_finding : Finding :=
  { category := "Storage"
    check := "Disk usage"
    status := "WARNING"
    details := "No disk usage data found"
    risk_score := risk_score "WARNING"
    reason := "Cannot confirm disk headroom for safe operation" }

/-- One per-mount disk finding of the loop at lines 286-297. -/
def disk_finding (entry : String × ℚ × Nat × Nat) : Finding :=
  let mountpoint := entry.1
  let percent := entry.2.1
  let used := entry.2.2.1
  let total := entry.2.2.2
  let status := status_from_threshold percent 80 90
  { category := "Storage"
    check := "Disk usage " ++ mountpoint
    status := status
    details := fmtFixed 1 percent ++ "% used (" ++
      fmtFixed 1 ((used : ℚ) / 1024 ^ 3) ++ " GB / " ++
      fmtFixed 1 ((total : ℚ) / 1024 ^ 3) ++ " GB)"
    risk_score := risk_score status
    reason := "Low free space can cause service failures" }

/-- One per-mount inode finding of the loop at lines 300-312. -/
def inode_finding (entry : String × ℚ) : Finding :=
  let status := status_from_threshold entry.2 70 90
  { category := "Storage"
    check := "Inode usage " ++ entry.1
    status := status
    details := fmtFixed 1 entry.2 ++ "% inode usage"
    risk_score := risk_score status
    reason := "Inode exhaustion breaks file creation and logging" }

/-- The critical-services finding appended at lines 314-325. -/
def services_finding (env : Env) (services : List String) : Finding :=
  let r := check_services env services
  { category := "Services"
    check := "Critical services"
    status := r.1
    details := r.2
    risk_score := risk_score r.1
    reason := "Required services must be available before commissioning" }

/-- The log-growth finding appended at lines 327-337. -/
def log_finding (env : Env) : Finding :=
  let r := check_log_growth env "/var/log" 512 2048
  { category := "Logs"
    check := "Log growth"
    status := r.1
    details := r.2
    risk_score := risk_score r.1
    reason := "Runaway logs can exhaust disk and reduce availability" }

/-- The time-sync finding appended at lines 339-349. -/
def time_sync_finding (env : Env) : Finding :=
  let r := check_time_sync env
  { category := "System"
    check := "Time synchronization"
    status := r.1
    details := r.2
    risk_score := risk_score r.1
    reason := "Accurate time is required for audit and incident response" }

/-- Embedding of `run_system_health_checks` (lines 221-351).  Findings are accumulated
in the source's order.  The call to `_load_critical_services` at line 314
is the one statement of the function that can raise (an `AttributeError`
on a valid-JSON non-object configuration file); since an exception
discards all findings accumulated so far, lifting the `match` on its
result to the front is semantically equivalent to the source's sequence. -/
def run_system_health_checks (env : Env) : Except String (List Finding) :=
  match load_critical_services env.configJson with
  | .error e => .error e
  | .ok services =>
    let disks := get_disk_usages env
    let diskFindings :=
      if disks = [] then [disk_unavailable_finding] else disks.map disk_finding
    let inodeFindings := (get_inode_usages env).map inode_finding
    .ok ([os_uptime_finding env, cpu_load_finding env, memory_finding env]
      ++ diskFindings ++ inodeFindings
      ++ [services_finding env services, log_finding env, time_sync_finding env])

/-! ## Concrete environments used by witnesses and counterexamples -/

/-- A plain healthy-ish environment: default configuration, no mounts. -/
def envW : Env :=
  { osName := "Debian GNU/Linux 12"
    uptimeSeconds := 60
    load1 := 0
    cpuCountRaw := some 2
    meminfo := none
    mountLines := some []
    systemctlOut := fun _ => some "active"
    configJson := none
    logBytes := some 0
    timedatectlOut := some "yes" }

/-- Variant of `envW` with a critical-services configuration file whose contents are
the valid JSON text `[]`: `json.load` succeeds with a list, and `data.get`
then raises `AttributeError`. -/
def envBadConfig : Env := { envW with configJson := some (Json.arr []) }

/-- The mocked environment of the end-to-end test sentence: memory
8 GiB total / 1 GiB available, one real mount at 95% used, 1-minute load
0.5 on 4 CPUs, every service active, 100 MB of logs, NTP synchronized. -/
def envC2 : Env :=
  { osName := "Ubuntu 22.04"
    uptimeSeconds := 3600
    load1 := 1/2
    cpuCountRaw := some 4
    meminfo := some (8388608, 1048576)
    mountLines := some [{ parts := ["/dev/sda1", "/", "ext4", "rw"],
                          du := some (100, 95), vfs := none }]
    systemctlOut := fun _ => some "active"
    configJson := none
    logBytes := some (100 * 1024 * 1024)
    timedatectlOut := some "yes" }

/-! ## Helper lemmas -/

/-- The classifier only ever produces the three status strings. -/
theorem status_from_threshold_cases (v w r : ℚ) :
    status_from_threshold v w r = "OK" ∨ status_from_threshold v w r = "WARNING" ∨
      status_from_threshold v w r = "RISK" := by
  unfold status_from_threshold
  split_ifs <;> simp

/-- A string with a nonempty literal prefix is nonempty. -/
theorem prefixed_ne_empty (s : String) (p : String) (hp : 0 < p.length) :
    p ++ s ≠ "" := by
  intro h
  have h2 : (p ++ s).length = 0 := by rw [h]; rfl
  rw [String.length_append] at h2
  omega

/-- Decomposition of a successful run into the fixed-order segments of the
orchestrator. -/
theorem run_ok_elim (env : Env) (l : List Finding)
    (h : run_system_health_checks env = .ok l) :
    ∃ services, load_critical_services env.configJson = .ok services ∧
      l = [os_uptime_finding env, cpu_load_finding env, memory_finding env]
        ++ (if get_disk_usages env = [] then [disk_unavailable_finding]
            else (get_disk_usages env).map disk_finding)
        ++ (get_inode_usages env).map inode_finding
        ++ [services_finding env services, log_finding env, time_sync_finding env] := by
  unfold run_system_health_checks at h
  cases hl : load_critical_services env.configJson with
  | error e => rw [hl] at h; cases h
  | ok services =>
    rw [hl] at h
    simp only [Except.ok.injEq] at h
    exact ⟨services, rfl, h.symm⟩

/-- The invariant of one finding record, as demanded by the data-model
section of the specification. -/
def FindingInv (f : Finding) : Prop :=
  f.category ≠ "" ∧ f.check ≠ "" ∧
    (f.status = "OK" ∨ f.status = "WARNING" ∨ f.status = "RISK") ∧
    f.risk_score = risk_score f.status

theorem findingInv_os (env : Env) : FindingInv (os_uptime_finding env) := by
  unfold FindingInv os_uptime_finding
  refine ⟨by simp, by simp, ?_, rfl⟩
  dsimp only
  split <;> simp

theorem findingInv_cpu (env : Env) : FindingInv (cpu_load_finding env) := by
  unfold FindingInv cpu_load_finding
  exact ⟨by simp, by simp, by dsimp only; exact status_from_threshold_cases _ _ _, rfl⟩

theorem findingInv_memory (env : Env) : FindingInv (memory_finding env) := by
  unfold FindingInv memory_finding
  refine ⟨by simp, by simp, ?_, rfl⟩
  dsimp only
  split
  · exact status_from_threshold_cases _ _ _
  · simp

theorem findingInv_disk_unavailable : FindingInv disk_unavailable_finding := by
  unfold FindingInv disk_unavailable_finding
  exact ⟨by simp, by simp, by simp, rfl⟩

theorem findingInv_disk (e : String × ℚ × Nat × Nat) : FindingInv (disk_finding e) := by
  unfold FindingInv disk_finding
  refine ⟨by simp, ?_, by dsimp only; exact status_from_threshold_cases _ _ _, rfl⟩
  exact prefixed_ne_empty e.1 "Disk usage " (by decide)

theorem findingInv_inode (e : String × ℚ) : FindingInv (inode_finding e) := by
  unfold FindingInv inode_finding
  refine ⟨by simp, ?_, by dsimp only; exact status_from_threshold_cases _ _ _, rfl⟩
  exact prefixed_ne_empty e.1 "Inode usage " (by decide)

theorem findingInv_services (env : Env) (services : List String) :
    FindingInv (services_finding env services) := by
  unfold FindingInv
  refine ⟨by simp [services_finding], by simp [services_finding], ?_, rfl⟩
  rcases hm : services.filter (fun name => !(systemctl_is_active env name)) with _ | ⟨a, t⟩ <;>
    simp [services_finding, check_services, hm]

theorem findingInv_log (env : Env) : FindingInv (log_finding env) := by
  unfold FindingInv log_finding check_log_growth
  refine ⟨by simp, by simp, ?_, rfl⟩
  split
  · simp
  · exact status_from_threshold_cases _ _ _

theorem findingInv_time (env : Env) : FindingInv (time_sync_finding env) := by
  unfold FindingInv
  refine ⟨by simp [time_sync_finding], by simp [time_sync_finding], ?_, rfl⟩
  rcases ht : env.timedatectlOut with _ | out <;>
    simp [time_sync_finding, check_time_sync, ht] <;> split_ifs <;> simp

/-! ## Claims -/

/-- C1: with `warn_cutoff < risk_cutoff`, the threshold classifier returns
`RISK` exactly when `value ≥ risk_cutoff`, `WARNING` exactly when
`warn_cutoff ≤ value < risk_cutoff`, and `OK` exactly when
`value < warn_cutoff`; in particular classification at each cutoff is
exact on both sides of the boundary. -/
theorem C1_threshold_boundaries (v w r : ℚ) (h : w < r) :
    (status_from_threshold v w r = "RISK" ↔ r ≤ v) ∧
    (status_from_threshold v w r = "WARNING" ↔ w ≤ v ∧ v < r) ∧
    (status_from_threshold v w r = "OK" ↔ v < w) := by
  unfold status_from_threshold
  split_ifs with h1 h2
  · refine ⟨iff_of_true rfl h1, iff_of_false (by simp) ?_, iff_of_false (by simp) ?_⟩
    · rintro ⟨-, hlt⟩
      exact absurd h1 (not_le.mpr hlt)
    · intro hlt
      exact absurd h1 (not_le.mpr (hlt.trans h))
  · rw [not_le] at h1
    exact ⟨iff_of_false (by simp) (not_le.mpr h1),
      iff_of_true rfl ⟨h2, h1⟩,
      iff_of_false (by simp) (not_lt.mpr h2)⟩
  · rw [not_le] at h1 h2
    refine ⟨iff_of_false (by simp) (not_le.mpr h1),
      iff_of_false (by simp) ?_, iff_of_true rfl h2⟩
    rintro ⟨hge, -⟩
    exact absurd hge (not_le.mpr h2)

/-- Witness for C1 at the risk boundary `v = r = 90`, `w = 80`. -/
theorem C1_threshold_boundaries_witness :
    (status_from_threshold 90 80 90 = "RISK" ↔ (90 : ℚ) ≤ 90) ∧
    (status_from_threshold 90 80 90 = "WARNING" ↔ (80 : ℚ) ≤ 90 ∧ (90 : ℚ) < 90) ∧
    (status_from_threshold 90 80 90 = "OK" ↔ (90 : ℚ) < 80) :=
  C1_threshold_boundaries 90 80 90 (by norm_num)

/-- C3: neither `subprocess.run` invocation of the service-status and
time-sync collectors passes a `timeout` argument, so no bounded timeout is
applied; the code as written can block indefinitely (and
`subprocess.TimeoutExpired` is not among the caught exceptions). -/
theorem C3_no_timeout_passed :
    (systemctl_run_call "ssh").timeout = none ∧
    timedatectl_run_call.timeout = none :=
  ⟨rfl, rfl⟩

/-- C4: every finding of a successful run has a non-empty category, a
non-empty check name, a status in the fixed three-value set, and a
risk score that is the fixed function of its status. -/
theorem C4_finding_invariant (env : Env) (l : List Finding)
    (h : run_system_health_checks env = .ok l) :
    ∀ f ∈ l, f.category ≠ "" ∧ f.check ≠ "" ∧
      (f.status = "OK" ∨ f.status = "WARNING" ∨ f.status = "RISK") ∧
      f.risk_score = risk_score f.status ∧
      (f.status = "OK" → f.risk_score = 10) ∧
      (f.status = "WARNING" → f.risk_score = 55) ∧
      (f.status = "RISK" → f.risk_score = 85) := by
  obtain ⟨services, -, rfl⟩ := run_ok_elim env l h
  intro f hf
  have hF : FindingInv f := ?_
  · obtain ⟨h₁, h₂, h₃, h₄⟩ := hF
    refine ⟨h₁, h₂, h₃, h₄, ?_, ?_, ?_⟩ <;> intro hs <;> rw [h₄, hs] <;> rfl
  show FindingInv f
  by_cases hd : get_disk_usages env = [] <;>
    simp [hd, List.mem_cons, List.mem_append, List.mem_map, List.cons_append,
      List.nil_append, List.singleton_append, List.append_assoc] at hf
  · rcases hf with rfl | rfl | rfl | rfl | ⟨e, q, -, rfl⟩ | rfl | rfl | rfl
    · exact findingInv_os env
    · exact findingInv_cpu env
    · exact findingInv_memory env
    · exact findingInv_disk_unavailable
    · exact findingInv_inode (e, q)
    · exact findingInv_services env services
    · exact findingInv_log env
    · exact findingInv_time env
  · rcases hf with rfl | rfl | rfl | ⟨e, q, u, t, -, rfl⟩ | ⟨e, q, -, rfl⟩ | rfl | rfl | rfl
    · exact findingInv_os env
    · exact findingInv_cpu env
    · exact findingInv_memory env
    · exact findingInv_disk (e, q, u, t)
    · exact findingInv_inode (e, q)
    · exact findingInv_services env services
    · exact findingInv_log env
    · exact findingInv_time env

/-- Witness for C4: the environment `envW` runs successfully and its first
finding satisfies the invariant. -/
theorem C4_finding_invariant_witness :
    (os_uptime_finding envW).category ≠ "" ∧ (os_uptime_finding envW).check ≠ "" ∧
      ((os_uptime_finding envW).status = "OK" ∨ (os_uptime_finding envW).status = "WARNING" ∨
        (os_uptime_finding envW).status = "RISK") ∧
      (os_uptime_finding envW).risk_score = risk_score (os_uptime_finding envW).status ∧
      ((os_uptime_finding envW).status = "OK" → (os_uptime_finding envW).risk_score = 10) ∧
      ((os_uptime_finding envW).status = "WARNING" → (os_uptime_finding envW).risk_score = 55) ∧
      ((os_uptime_finding envW).status = "RISK" → (os_uptime_finding envW).risk_score = 85) :=
  C4_finding_invariant envW ((run_system_health_checks envW).toOption.getD [])
    rfl (os_uptime_finding envW) (List.Mem.head _)

/-- C5: the claim that `run_system_health_checks` never raises fails: with
a configuration file containing the valid JSON text `[]`, `data.get`
raises an uncaught `AttributeError` and the run returns no findings at
all. -/
theorem C5_run_raises_on_list_config :
    run_system_health_checks envBadConfig = .error "AttributeError" := rfl

/-- C9: the fallback claim fails on one of its three named conditions:
a malformed configuration whose top level is a valid-JSON list makes the
loader raise `AttributeError` instead of returning the defaults, while a
missing/unreadable/unparseable source does yield exactly
`["ssh", "systemd-journald"]`. -/
theorem C9_fallback_and_crash :
    load_critical_services (some (Json.arr [])) = .error "AttributeError" ∧
    load_critical_services none = .ok ["ssh", "systemd-journald"] :=
  ⟨rfl, rfl⟩

/-- C2 counterexample: on the mocked environment the memory finding (the
third finding, check `Memory usage`) has status `WARNING`, not `RISK`:
87.5% used is below the risk cutoff 90. -/
theorem C2_memory_finding_not_risk :
    (run_system_health_checks envC2).toOption.map
        (List.map (fun f => (f.check, f.status))) =
      some [("OS version & uptime", "OK"), ("CPU load (1m)", "OK"),
            ("Memory usage", "WARNING"), ("Disk usage /", "RISK"),
            ("Critical services", "OK"), ("Log growth", "OK"),
            ("Time synchronization", "OK")] ∧
    ("WARNING" : String) ≠ "RISK" := by
  constructor
  · norm_num +decide [run_system_health_checks, envC2, load_critical_services,
      default_services, get_disk_usages, diskUsagesOf, diskEntry, get_inode_usages,
      inodeUsagesOf, inodeEntry, os_uptime_finding, cpu_load_finding, memory_finding,
      disk_finding, services_finding, log_finding, time_sync_finding, check_services,
      systemctl_is_active, check_log_growth, check_time_sync, get_memory_info,
      cpu_count, status_from_threshold, risk_score, List.filterMap_cons,
      List.filterMap_nil]
  · simp

/-- C2 amended: on the mocked environment the run produces, in order, an
identity finding `OK`, a CPU finding `OK` (12.5% < 70), a memory finding
`WARNING` (80 ≤ 87.5 < 90), a disk finding `RISK` (95 ≥ 90), a services
finding `OK`, a log finding `OK`, and a time-sync finding `OK`. -/
theorem C2_mocked_environment_statuses :
    (run_system_health_checks envC2).toOption.map (List.map Finding.check) =
      some ["OS version & uptime", "CPU load (1m)", "Memory usage", "Disk usage /",
            "Critical services", "Log growth", "Time synchronization"] ∧
    (run_system_health_checks envC2).toOption.map (List.map Finding.status) =
      some ["OK", "OK", "WARNING", "RISK", "OK", "OK", "OK"] := by
  constructor <;>
    norm_num +decide [run_system_health_checks, envC2, load_critical_services,
      default_services, get_disk_usages, diskUsagesOf, diskEntry, get_inode_usages,
      inodeUsagesOf, inodeEntry, os_uptime_finding, cpu_load_finding, memory_finding,
      disk_finding, services_finding, log_finding, time_sync_finding, check_services,
      systemctl_is_active, check_log_growth, check_time_sync, get_memory_info,
      cpu_count, status_from_threshold, risk_score, List.filterMap_cons,
      List.filterMap_nil]

/-- A disk-usage finding is recognised by its constant category and reason
fields (both per-mount findings and the synthetic one). -/
def isDiskFinding (f : Finding) : Bool :=
  f.category == "Storage" &&
    (f.reason == "Low free space can cause service failures" ||
     f.reason == "Cannot confirm disk headroom for safe operation")

/-- An inode-usage finding is recognised by its constant category and
reason fields. -/
def isInodeFinding (f : Finding) : Bool :=
  f.category == "Storage" &&
    f.reason == "Inode exhaustion breaks file creation and logging"

/-- C6: the disk-usage findings of a successful run are exactly one
synthetic `WARNING`/`Storage` finding when the collected mount list is
empty, and exactly one finding per collected mount (and no synthetic
finding) otherwise. -/
theorem C6_disk_findings (env : Env) (l : List Finding)
    (h : run_system_health_checks env = .ok l) :
    l.filter isDiskFinding =
      (if get_disk_usages env = [] then [disk_unavailable_finding]
       else (get_disk_usages env).map disk_finding) ∧
    disk_unavailable_finding.status = "WARNING" ∧
    disk_unavailable_finding.category = "Storage" ∧
    disk_unavailable_finding ∉ (get_disk_usages env).map disk_finding := by
  obtain ⟨services, -, rfl⟩ := run_ok_elim env l h
  refine ⟨?_, rfl, rfl, ?_⟩
  · have h1 : isDiskFinding (os_uptime_finding env) = false := rfl
    have h2 : isDiskFinding (cpu_load_finding env) = false := rfl
    have h3 : isDiskFinding (memory_finding env) = false := rfl
    have h4 : ∀ e, isDiskFinding (inode_finding e) = false := fun _ => rfl
    have h5 : isDiskFinding (services_finding env services) = false := rfl
    have h6 : isDiskFinding (log_finding env) = false := rfl
    have h7 : isDiskFinding (time_sync_finding env) = false := rfl
    have h8 : ∀ e, isDiskFinding (disk_finding e) = true := fun _ => rfl
    have h9 : isDiskFinding disk_unavailable_finding = true := rfl
    have h8f : (isDiskFinding ∘ disk_finding) = fun _ => true := funext h8
    have h4f : (isDiskFinding ∘ inode_finding) = fun _ => false := funext h4
    by_cases hd : get_disk_usages env = [] <;>
      simp [hd, List.filter_append, List.filter_cons, List.filter_nil,
        List.filter_map, h1, h2, h3, h5, h6, h7, h9, h8f, h4f,
        List.filter_true, List.filter_false]
  · intro hmem
    obtain ⟨e, -, heq⟩ := List.mem_map.mp hmem
    have hr := congrArg Finding.reason heq
    simp [disk_finding, disk_unavailable_finding] at hr

/-- Witness for C6 on `envW`, whose mount list is empty. -/
theorem C6_disk_findings_witness :
    ((run_system_health_checks envW).toOption.getD []).filter isDiskFinding =
      (if get_disk_usages envW = [] then [disk_unavailable_finding]
       else (get_disk_usages envW).map disk_finding) ∧
    disk_unavailable_finding.status = "WARNING" ∧
    disk_unavailable_finding.category = "Storage" ∧
    disk_unavailable_finding ∉ (get_disk_usages envW).map disk_finding :=
  C6_disk_findings envW ((run_system_health_checks envW).toOption.getD []) rfl

/-- C7: the inode findings of a successful run are exactly one finding
per collected inode entry — in particular an empty collected list yields
no inode findings and no synthetic finding — and a mount whose
`statvfs.f_files` is zero contributes nothing at all to the collected
list. -/
theorem C7_inode_findings :
    (∀ env l, run_system_health_checks env = .ok l →
       l.filter isInodeFinding = (get_inode_usages env).map inode_finding) ∧
    (∀ (pre post : List MountLine) (ml : MountLine) (ffree : Nat),
       ml.vfs = some (0, ffree) →
       inodeUsagesOf (pre ++ ml :: post) = inodeUsagesOf (pre ++ post)) := by
  constructor
  · intro env l h
    obtain ⟨services, -, rfl⟩ := run_ok_elim env l h
    have h1 : isInodeFinding (os_uptime_finding env) = false := rfl
    have h2 : isInodeFinding (cpu_load_finding env) = false := rfl
    have h3 : isInodeFinding (memory_finding env) = false := rfl
    have h4 : ∀ e, isInodeFinding (inode_finding e) = true := fun _ => rfl
    have h5 : isInodeFinding (services_finding env services) = false := rfl
    have h6 : isInodeFinding (log_finding env) = false := rfl
    have h7 : isInodeFinding (time_sync_finding env) = false := rfl
    have h8 : ∀ e, isInodeFinding (disk_finding e) = false := fun _ => rfl
    have h9 : isInodeFinding disk_unavailable_finding = false := rfl
    have h4f : (isInodeFinding ∘ inode_finding) = fun _ => true := funext h4
    have h8f : (isInodeFinding ∘ disk_finding) = fun _ => false := funext h8
    by_cases hd : get_disk_usages env = [] <;>
      simp [hd, List.filter_append, List.filter_cons, List.filter_nil,
        List.filter_map, h1, h2, h3, h5, h6, h7, h9, h4f, h8f,
        List.filter_true, List.filter_false]
  · intro pre post ml ffree hml
    have hentry : inodeEntry ml = none := by
      unfold inodeEntry
      rcases hp : ml.parts with _ | ⟨d, _ | ⟨m, _ | ⟨t, rest⟩⟩⟩ <;>
        simp [hml] <;> split_ifs <;> simp [hml]
    simp [inodeUsagesOf, List.filterMap_append, List.filterMap_cons, hentry]

/-- A mount line whose filesystem reports zero total inodes. -/
def mlZeroInode : MountLine :=
  { parts := ["/dev/sdb1", "/data", "ext4", "rw"], du := some (10, 5), vfs := some (0, 0) }

/-- A mount line with both disk and inode data. -/
def mlRoot : MountLine :=
  { parts := ["/dev/sda1", "/", "ext4", "rw"], du := some (10, 5), vfs := some (10, 5) }

/-- Variant of `envW` with one real mount carrying both disk and inode data and one
zero-inode mount. -/
def envInode : Env :=
  { envW with mountLines := some [mlRoot, mlZeroInode] }

/-- Witness for C7: applied to `envInode` and to the zero-inode mount. -/
theorem C7_inode_findings_witness :
    ((run_system_health_checks envInode).toOption.getD []).filter isInodeFinding =
      (get_inode_usages envInode).map inode_finding ∧
    inodeUsagesOf ([] ++ mlZeroInode :: []) = inodeUsagesOf ([] ++ []) :=
  ⟨C7_inode_findings.1 envInode ((run_system_health_checks envInode).toOption.getD []) rfl,
   C7_inode_findings.2 [] [] mlZeroInode 0 rfl⟩

/-- C8: whenever the memory collector reports total memory zero, the
memory-usage finding (always the third finding) has status `WARNING`, even
though the 0% value would classify as `OK` under the thresholds. -/
theorem C8_memory_zero_forces_warning (env : Env) (l : List Finding)
    (h : run_system_health_checks env = .ok l)
    (hz : (get_memory_info env).1 = 0) :
    l[2]?.map Finding.status = some "WARNING" ∧
    l[2]?.map Finding.check = some "Memory usage" ∧
    status_from_threshold 0 80 90 = "OK" := by
  obtain ⟨services, -, rfl⟩ := run_ok_elim env l h
  have hm : (memory_finding env).status = "WARNING" := by
    simp [memory_finding, hz]
  have hc : (memory_finding env).check = "Memory usage" := rfl
  refine ⟨?_, ?_, by norm_num [status_from_threshold]⟩ <;>
    simp [List.cons_append, List.nil_append, List.append_assoc,
      List.getElem?_cons_succ, List.getElem?_cons_zero, hm, hc]

/-- Witness for C8 on `envW`, whose meminfo source is unreadable. -/
theorem C8_memory_zero_forces_warning_witness :
    ((run_system_health_checks envW).toOption.getD [])[2]?.map Finding.status =
      some "WARNING" ∧
    ((run_system_health_checks envW).toOption.getD [])[2]?.map Finding.check =
      some "Memory usage" ∧
    status_from_threshold 0 80 90 = "OK" :=
  C8_memory_zero_forces_warning envW
    ((run_system_health_checks envW).toOption.getD []) rfl rfl

/-- C10: a configuration that parses to an object with a non-empty list
under `critical_services` whose entries are all empty after stripping
loads as the empty list (not the defaults), and the services check on an
empty list reports `OK` with all-active details. -/
theorem C10_all_whitespace_entries (fields : List (String × Json))
    (entries : List Json) (env : Env)
    (hne : entries ≠ [])
    (hkey : fields.lookup "critical_services" = some (Json.arr entries))
    (hws : ∀ e ∈ entries, pyStrip (pyStr e) = "") :
    load_critical_services (some (Json.obj fields)) = .ok [] ∧
    check_services env [] = ("OK", "All critical services active") := by
  refine ⟨?_, rfl⟩
  cases entries with
  | nil => exact absurd rfl hne
  | cons a t =>
    simp only [load_critical_services, hkey, Option.getD_some]
    simp
    exact ⟨hws a (List.mem_cons_self _ _), fun e he => hws e (List.mem_cons_of_mem _ he)⟩

/-- The configuration object of the C10 witness: one whitespace-only
entry. -/
def wsFields : List (String × Json) := [("critical_services", Json.arr [Json.str " "])]

/-- Witness for C10 with a single whitespace-only entry. -/
theorem C10_all_whitespace_entries_witness :
    load_critical_services (some (Json.obj wsFields)) = .ok [] ∧
    check_services envW [] = ("OK", "All critical services active") :=
  C10_all_whitespace_entries wsFields [Json.str " "] envW (by simp) rfl
    (by intro e he; simp at he; subst he; rfl)

end SystemChecks
